import Mathlib

/-!
Verification development for the azure-storage-cpp client library.

The development shallowly embeds the parts of the repository that the
checked properties are about:

* the entity property value model of `includes/was/table.h`
  (`edm_type`, `entity_property`, its typed accessors and setters);
* the block identifier encoding used by the block blob tests
  (`get_block_id`, built on `utility::conversions::to_base64`);
* the chunked transfer engine (planner, block splitter, concurrency
  gate, integrity validation, deadline guard, block list committer),
  whose implementation is not part of the given sources; those pieces
  are modelled from the specification and from the observable
  behaviour pinned by `tests/cloud_block_blob_test.cpp`.

Machine integers are modelled as `Nat`/`Int`; byte values are `Nat`
values below 256.
-/

set_option autoImplicit false

namespace AzureStorage

/-! ## Base64 encoding and decoding

Models `utility::conversions::to_base64` / `from_base64` from the
C++ REST SDK utility library, which the repository uses for block
identifiers and for binary entity property values.  `to_base64`
applied to a 64-bit integer encodes the 8 bytes of its in-memory
representation, which is little-endian on every platform the library
supports. -/

/-- The base64 alphabet, index 0 to 63. -/
def b64alphabet : String :=
  "ABCDEFGHIJKLMNOPQRSTUVWXYZabcdefghijklmnopqrstuvwxyz0123456789+/"

/-- The base64 character for a 6-bit group. -/
def b64char (i : Nat) : Char :=
  b64alphabet.data.getD i '='

/-- Encode a byte list in groups of three bytes to four characters,
with `=` padding on the final partial group. -/
def encodeGroups : List Nat → List Char
  | [] => []
  | [b0] =>
    [b64char (b0 / 4), b64char (b0 % 4 * 16), '=', '=']
  | [b0, b1] =>
    [b64char (b0 / 4), b64char (b0 % 4 * 16 + b1 / 16), b64char (b1 % 16 * 4), '=']
  | b0 :: b1 :: b2 :: rest =>
    b64char (b0 / 4) :: b64char (b0 % 4 * 16 + b1 / 16) ::
    b64char (b1 % 16 * 4 + b2 / 64) :: b64char (b2 % 64) :: encodeGroups rest

/-- `utility::conversions::to_base64` on a byte vector. -/
def to_base64 (bytes : List Nat) : String :=
  ⟨encodeGroups bytes⟩

/-- The index of a character in the base64 alphabet. -/
def b64index (c : Char) : Option Nat :=
  List.findIdx? (· == c) b64alphabet.data

/-- Decode base64 characters four at a time, validating padding;
`none` models the exception `from_base64` raises on invalid input. -/
def decodeGroups : List Char → Option (List Nat)
  | [] => some []
  | [c0, c1, '=', '='] => do
    let i0 ← b64index c0
    let i1 ← b64index c1
    if i1 % 16 = 0 then some [i0 * 4 + i1 / 16] else none
  | [c0, c1, c2, '='] => do
    let i0 ← b64index c0
    let i1 ← b64index c1
    let i2 ← b64index c2
    if i2 % 4 = 0 then some [i0 * 4 + i1 / 16, i1 % 16 * 16 + i2 / 4] else none
  | c0 :: c1 :: c2 :: c3 :: rest => do
    let i0 ← b64index c0
    let i1 ← b64index c1
    let i2 ← b64index c2
    let i3 ← b64index c3
    let tail ← decodeGroups rest
    some ([i0 * 4 + i1 / 16, i1 % 16 * 16 + i2 / 4, i2 % 4 * 64 + i3] ++ tail)
  | _ => none

/-- `utility::conversions::from_base64`. -/
def from_base64 (s : String) : Option (List Nat) :=
  decodeGroups s.data

/-- The little-endian byte representation of a value in `count` bytes. -/
def toLEBytes : Nat → Nat → List Nat
  | 0, _ => []
  | count + 1, n => n % 256 :: toLEBytes count (n / 256)

/-- `utility::conversions::to_base64 (uint64_t)`: base64 of the eight
bytes of the integer in memory order (little-endian). -/
def to_base64_u64 (n : Nat) : String :=
  to_base64 (toLEBytes 8 n)

/-- `block_blob_test_base::get_block_id`
(tests/cloud_block_blob_test.cpp line 24): the block index, widened to
a 64-bit integer, encoded with `to_base64`. -/
def get_block_id (block_index : Nat) : String :=
  to_base64_u64 block_index

/-- Strict lexicographic order on character lists by character code:
the ordering of C++ `std::string` and of the service over block
identifiers. -/
def lexLt : List Char → List Char → Bool
  | [], [] => false
  | [], _ :: _ => true
  | _ :: _, [] => false
  | a :: as, b :: bs =>
    if a.toNat < b.toNat then true
    else if a.toNat = b.toNat then lexLt as bs
    else false

/-- The id ordering used by the block list: byte lexicographic order
of the encoded id. -/
def id_lt (a b : String) : Bool :=
  lexLt a.data b.data

/-! ## Entity property value model (`includes/was/table.h`)

`entity_property` stores a tagged scalar value: an `edm_type` tag, a
null flag, and the textual representation of the value
(`m_property_type`, `m_is_null`, `m_value` in the header).  Typed
accessors raise `std::runtime_error` with a message of the form
"The type of the entity property is not ..." when the tag does not
match; this family of errors is modelled by `prop_error.type_mismatch`,
while the other runtime errors the accessors can raise (parse
failures) are modelled by `prop_error.value_error`. -/

/-- `wa::storage::edm_type` (table.h line 31). -/
inductive edm_type
  | string
  | binary
  | boolean
  | datetime
  | double_floating_point
  | guid
  | int32
  | int64
deriving DecidableEq, Repr

/-- A double value as `double_value` classifies it: one of the special
spellings, or a finite value kept as its textual representation (the
`istringstream` extraction of the numeral is numeric conversion
external to the library and is not interpreted further). -/
inductive edm_double
  | notANumber
  | infinity
  | negInfinity
  | finite (text : String)
deriving DecidableEq, Repr

/-- Modelled from the spec: the protocol constants
`protocol::double_not_a_number`, `protocol::double_infinity` and
`protocol::double_negative_infinity` live in `was/protocol.h`, which is
not among the given sources; they are the OData spellings of the
special double values. -/
def double_not_a_number : String := "NaN"

def double_infinity : String := "Infinity"

def double_negative_infinity : String := "-Infinity"

/-- Errors raised by the `entity_property` accessors.  In the header
every error is a `std::runtime_error`; `type_mismatch` stands for the
messages "The type of the entity property is not ...", `value_error`
for every other message. -/
inductive prop_error
  | type_mismatch (expected : edm_type)
  | value_error (msg : String)
deriving DecidableEq, Repr

/-- `wa::storage::entity_property` (table.h line 256): the stored type
tag, the null flag and the textual value. -/
structure entity_property where
  m_property_type : edm_type
  m_is_null : Bool
  m_value : String
deriving DecidableEq, Repr

namespace entity_property

/-- The default constructor (table.h line 263): type `string`, null. -/
def default : entity_property :=
  ⟨.string, true, ""⟩

/-- `property_type` (table.h line 359). -/
def property_type (p : entity_property) : edm_type :=
  p.m_property_type

/-- `set_property_type` (table.h line 368). -/
def set_property_type (p : entity_property) (t : edm_type) : entity_property :=
  { p with m_property_type := t }

/-- `is_null` (table.h line 377). -/
def is_null (p : entity_property) : Bool :=
  p.m_is_null

/-- `set_is_null` (table.h line 386). -/
def set_is_null (p : entity_property) (value : Bool) : entity_property :=
  { p with m_is_null := value }

/-- `str` (table.h line 673). -/
def str (p : entity_property) : String :=
  p.m_value

/-- `binary_value` (table.h line 400): type check, then
`from_base64`, whose failure on malformed input is an error. -/
def binary_value (p : entity_property) : Except prop_error (List Nat) :=
  if p.m_property_type ≠ .binary then
    .error (.type_mismatch .binary)
  else
    match from_base64 p.m_value with
    | some bytes => .ok bytes
    | none => .error (.value_error "invalid base64 input")

/-- `boolean_value` (table.h line 417): type check, then comparison
with the spellings "false" and "true"; anything else is a parse
error. -/
def boolean_value (p : entity_property) : Except prop_error Bool :=
  if p.m_property_type ≠ .boolean then
    .error (.type_mismatch .boolean)
  else if p.m_value = "false" then
    .ok false
  else if p.m_value = "true" then
    .ok true
  else
    .error (.value_error "An error occurred parsing the boolean.")

/-- `double_value` (table.h line 477): type check, the three special
spellings, otherwise the `istringstream` extraction (which raises no
error) modelled as the finite value with that text. -/
def double_value (p : entity_property) : Except prop_error edm_double :=
  if p.m_property_type ≠ .double_floating_point then
    .error (.type_mismatch .double_floating_point)
  else if p.m_value = double_not_a_number then
    .ok .notANumber
  else if p.m_value = double_infinity then
    .ok .infinity
  else if p.m_value = double_negative_infinity then
    .ok .negInfinity
  else
    .ok (.finite p.m_value)

/-- Whether a character is a hexadecimal digit. -/
def isHexChar (c : Char) : Bool :=
  c.isDigit || ('a' ≤ c && c ≤ 'f') || ('A' ≤ c && c ≤ 'F')

/-- The canonical 8-4-4-4-12 textual UUID shape checked by
`utility::string_to_uuid`, which raises an error on malformed input. -/
def uuid_format_ok (s : String) : Bool :=
  s.data.length = 36 &&
    (List.range 36).all fun i =>
      let c := s.data.getD i ' '
      if i = 8 ∨ i = 13 ∨ i = 18 ∨ i = 23 then c = '-' else isHexChar c

/-- `guid_value` (table.h line 511): type check, then
`utility::string_to_uuid`; a UUID is modelled by its textual form. -/
def guid_value (p : entity_property) : Except prop_error String :=
  if p.m_property_type ≠ .guid then
    .error (.type_mismatch .guid)
  else if uuid_format_ok p.m_value then
    .ok p.m_value
  else
    .error (.value_error "An error occurred parsing the GUID.")

/-- The numeric value of a digit prefix, `none` when the first
character is not a digit. -/
def digitsVal : List Char → Option Nat
  | [] => none
  | c :: cs =>
    if c.isDigit then
      some (cs.takeWhile Char.isDigit
        |>.foldl (fun acc d => acc * 10 + (d.toNat - 48)) (c.toNat - 48))
    else
      none

/-- The `istringstream` extraction of a signed integer as C++11
defines it: skip whitespace, optional sign, digit prefix; extraction
failure stores zero, overflow stores the nearest representable value. -/
def istream_int (s : String) (lo hi : Int) : Int :=
  let cs := s.data.dropWhile Char.isWhitespace
  match cs with
  | '-' :: rest =>
    match digitsVal rest with
    | none => 0
    | some n => max lo (-(n : Int))
  | '+' :: rest =>
    match digitsVal rest with
    | none => 0
    | some n => min hi (n : Int)
  | _ =>
    match digitsVal cs with
    | none => 0
    | some n => min hi (n : Int)

/-- `int32_value` (table.h line 529): type check, then the
`istringstream` extraction into a 32-bit integer. -/
def int32_value (p : entity_property) : Except prop_error Int :=
  if p.m_property_type ≠ .int32 then
    .error (.type_mismatch .int32)
  else
    .ok (istream_int p.m_value (-(2 ^ 31)) (2 ^ 31 - 1))

/-- `int64_value` (table.h line 549): type check, then the
`istringstream` extraction into a 64-bit integer. -/
def int64_value (p : entity_property) : Except prop_error Int :=
  if p.m_property_type ≠ .int64 then
    .error (.type_mismatch .int64)
  else
    .ok (istream_int p.m_value (-(2 ^ 63)) (2 ^ 63 - 1))

/-- `string_value` (table.h line 569): type check, then the stored
value itself. -/
def string_value (p : entity_property) : Except prop_error String :=
  if p.m_property_type ≠ .string then
    .error (.type_mismatch .string)
  else
    .ok p.m_value

/-- `set_value(const std::vector<uint8_t>&)` (table.h line 585): the
overload forwards to `set_value_impl`, which stores the base64 text —
unlike every other overload it assigns neither `m_property_type` nor
`m_is_null`. -/
def set_value_binary (p : entity_property) (value : List Nat) : entity_property :=
  { p with m_value := to_base64 value }

/-- `set_value(bool)` (table.h line 594). -/
def set_value_boolean (p : entity_property) (value : Bool) : entity_property :=
  { p with
    m_property_type := .boolean
    m_is_null := false
    m_value := if value then "true" else "false" }

/-- `set_value(const utility::datetime&)` (table.h line 607) sets the
tag and the flag in the header; its `set_value_impl` is `WASTORAGE_API`
and outside the given sources.  Modelled from the spec: the impl
serializes the datetime to its ISO 8601 text, so a datetime is modelled
by that text. -/
def set_value_datetime (p : entity_property) (value : String) : entity_property :=
  { p with
    m_property_type := .datetime
    m_is_null := false
    m_value := value }

/-- The textual form `set_value_impl(double)` stores. -/
def double_text : edm_double → String
  | .notANumber => double_not_a_number
  | .infinity => double_infinity
  | .negInfinity => double_negative_infinity
  | .finite text => text

/-- `set_value(double)` (table.h line 618) sets the tag and the flag
in the header; its `set_value_impl` is `WASTORAGE_API` and outside the
given sources.  Modelled from the spec: the impl serializes the double
to its textual form. -/
def set_value_double (p : entity_property) (value : edm_double) : entity_property :=
  { p with
    m_property_type := .double_floating_point
    m_is_null := false
    m_value := double_text value }

/-- `set_value(utility::uuid)` (table.h line 629); the impl stores
`uuid_to_string`, and a UUID is modelled by its textual form. -/
def set_value_guid (p : entity_property) (value : String) : entity_property :=
  { p with
    m_property_type := .guid
    m_is_null := false
    m_value := value }

/-- `set_value(int32_t)` (table.h line 640); the impl stores the
`ostringstream` rendering of the integer. -/
def set_value_int32 (p : entity_property) (value : Int) : entity_property :=
  { p with
    m_property_type := .int32
    m_is_null := false
    m_value := toString value }

/-- `set_value(int64_t)` (table.h line 651); the impl stores the
`ostringstream` rendering of the integer. -/
def set_value_int64 (p : entity_property) (value : Int) : entity_property :=
  { p with
    m_property_type := .int64
    m_is_null := false
    m_value := toString value }

/-- `set_value(utility::string_t)` (table.h line 662). -/
def set_value_string (p : entity_property) (value : String) : entity_property :=
  { p with
    m_property_type := .string
    m_is_null := false
    m_value := value }

end entity_property

/-! ## Chunked transfer engine

The implementation of the transfer engine (`cloud_block_blob` and its
helpers) is not among the given sources; only its test file is.  The
definitions below are therefore modelled from the specification
(sections 4.1 to 4.7) and from the observable behaviour pinned by
`tests/cloud_block_blob_test.cpp`. -/

/-- The error taxonomy of spec section 7.  `argument_error` surfaces
as `std::invalid_argument`; the service, integrity and timeout errors
surface as `wa::storage::storage_exception`. -/
inductive storage_error
  | argument_error
  | service_error
  | integrity_error
  | timeout_error
  | cancellation_error
deriving DecidableEq, Repr

/-- Modelled from the spec: the BlockSplitter (section 4.2) walks the
source, cutting one block of `min block_size remaining` bytes at a
time; the final block is the remainder.  The first component of a pair
is the block offset, the second its length.  The fuel argument only
drives structural recursion: one byte of remaining length is consumed
per step, so `remaining` itself is enough fuel. -/
def splitGo (block_size : Nat) : Nat → Nat → Nat → List (Nat × Nat)
  | 0, _, _ => []
  | fuel + 1, off, remaining =>
    if remaining = 0 then []
    else
      let len := min block_size remaining
      (off, len) :: splitGo block_size fuel (off + len) (remaining - len)

/-- Modelled from the spec: the block boundaries of a source of the
given length. -/
def split_blocks (length block_size : Nat) : List (Nat × Nat) :=
  splitGo block_size length 0 length

/-- Modelled from the spec: the TransferPlanner strategy
(section 4.1): single shot when the length is at most the single shot
threshold, otherwise chunked. -/
inductive strategy
  | single_shot
  | chunked (blocks : List (Nat × Nat))
deriving DecidableEq, Repr

/-- Modelled from the spec: the TransferPlanner rule (section 4.1),
refined by the behaviour `block_blob_upload` pins: the single shot
path is taken only when the length is at most the single shot
threshold AND the parallelism factor is one — at the same 6 MiB
length and 6 MiB threshold, line 181 (parallelism 1) expects one
request while line 187 (parallelism 4) expects seven, so a
parallelism factor above one forces the chunked strategy. -/
def plan (length threshold block_size parallelism : Nat) : strategy :=
  if length ≤ threshold ∧ parallelism = 1 then .single_shot
  else .chunked (split_blocks length block_size)

/-- Modelled from the spec: how many requests an upload job issues —
one for a single shot upload, one per block plus the commit request
for a chunked upload (sections 4.1, 4.4, 4.7 of the spec; observed in
`block_blob_upload`). -/
def upload_request_count (length threshold block_size parallelism : Nat) : Nat :=
  match plan length threshold block_size parallelism with
  | .single_shot => 1
  | .chunked blocks => blocks.length + 1

/-- The two `blob_request_options` flags the option validation reads. -/
structure blob_request_options where
  use_transactional_md5 : Bool
  store_blob_content_md5 : Bool
deriving DecidableEq, Repr

/-- Modelled from the spec: `upload_from_stream` validates the option
combination on the single shot path only — requiring a transactional
MD5 there while disabling content MD5 storage is rejected with
`std::invalid_argument` before any request (observed in
`block_blob_upload_invalid_options`), while the chunked path accepts
the same combination (observed in `block_blob_upload`: lines 169-170
expect 3 requests with it at 6 MiB over a 4 MiB threshold, and line
187 expects 7 requests with it even at a length equal to the
threshold, because the parallelism factor is 4 there).  The result is
the number of requests issued. -/
def upload_from_stream (opts : blob_request_options)
    (length threshold block_size parallelism : Nat) : Except storage_error Nat :=
  match plan length threshold block_size parallelism with
  | .single_shot =>
    if opts.use_transactional_md5 && !opts.store_blob_content_md5 then
      .error .argument_error
    else
      .ok 1
  | .chunked blocks => .ok (blocks.length + 1)

/-- Modelled from the spec (section 4.1) and the behaviour pinned by
`block_blob_upload_with_invalid_size`: requesting an explicit length
larger than the bytes remaining in the source fails — for a seekable
source as a `wa::storage::storage_exception` (a service error raised
mid transfer), for a non seekable source as `std::invalid_argument`
(an argument error).  A valid explicit length succeeds (observed in
`block_blob_upload_with_size` and its non seekable variant). -/
def upload_with_explicit_length (buffer_size buffer_offset blob_size : Nat)
    (seekable : Bool) : Except storage_error Unit :=
  if blob_size ≤ buffer_size - buffer_offset then
    .ok ()
  else if seekable then
    .error .service_error
  else
    .error .argument_error

/-! ### Block store and block list commit

Modelled from the spec (sections 4.4, 4.5, 4.7): the server side state
a block blob accumulates — the committed block list (ids with their
bytes, in committed order) and the uncommitted block store.  Digests
are abstracted by an arbitrary function from bytes to digest text,
passed explicitly. -/

/-- The server side state of one block blob. -/
structure blob_state where
  committed : List (String × List Nat)
  uncommitted : List (String × List Nat)
deriving DecidableEq, Repr

/-- A fresh blob with no blocks. -/
def blob_state.empty : blob_state :=
  ⟨[], []⟩

/-- Look up a block by id, most recent upload first. -/
def lookup_block (store : List (String × List Nat)) (id : String) : Option (List Nat) :=
  match store.find? (fun e => e.1 = id) with
  | some e => some e.2
  | none => none

/-- Resolve a block list entry: an uncommitted block with that id if
one exists, else the committed block with that id. -/
def resolve_block (s : blob_state) (id : String) : Option (List Nat) :=
  match lookup_block s.uncommitted id with
  | some bytes => some bytes
  | none => lookup_block s.committed id

/-- Modelled from the spec: `upload_block` (section 4.4): the request
carries the optional content MD5 header — the caller supplied digest
when one is given (the C++ API uses the empty string for none),
otherwise the digest of the body when transactional MD5 is enabled,
otherwise no header.  A header that disagrees with the digest of the
received bytes fails the block with an IntegrityError and leaves both
block lists unchanged; otherwise the block is stored uncommitted.
The result pairs the state after the operation with the error, if
any. -/
def upload_block (digestFn : List Nat → String) (transactional : Bool)
    (s : blob_state) (id : String) (body : List Nat) (content_md5 : Option String) :
    blob_state × Option storage_error :=
  let sent : Option String :=
    match content_md5 with
    | some m => some m
    | none => if transactional then some (digestFn body) else none
  match sent with
  | some m =>
    if m = digestFn body then
      ({ s with uncommitted := (id, body) :: s.uncommitted }, none)
    else
      (s, some .integrity_error)
  | none => ({ s with uncommitted := (id, body) :: s.uncommitted }, none)

/-- Modelled from the spec: `upload_block_list` (section 4.7): the one
atomic publish point.  Each referenced id is resolved against the
current state; the committed list becomes exactly the referenced
blocks in the given order, and the uncommitted store is dropped.
Referencing an unknown id is a service error that leaves the state
unchanged. -/
def upload_block_list (s : blob_state) (ids : List String) :
    blob_state × Option storage_error :=
  match ids.mapM (fun id => (resolve_block s id).map (fun bytes => (id, bytes))) with
  | some entries => (⟨entries, []⟩, none)
  | none => (s, some .service_error)

/-- Modelled from the spec: reading the blob back yields the
concatenation of the committed blocks in committed order. -/
def download_content (s : blob_state) : List Nat :=
  (s.committed.map (fun e => e.2)).flatten

/-- One chunk of an upload job: its block id, its bytes and the
optional caller supplied digest. -/
structure chunk_spec where
  id : String
  body : List Nat
  content_md5 : Option String
deriving DecidableEq, Repr

/-- Modelled from the spec: the chunk phase of an upload job uploads
the blocks in order and stops at the first failure (section 4.4: the
first failure ends the job with no partial success state). -/
def run_chunks (digestFn : List Nat → String) (transactional : Bool) :
    blob_state → List chunk_spec → blob_state × Option storage_error
  | s, [] => (s, none)
  | s, c :: cs =>
    match upload_block digestFn transactional s c.id c.body c.content_md5 with
    | (s2, none) => run_chunks digestFn transactional s2 cs
    | (s2, some e) => (s2, some e)

/-- The outcome of a whole upload job: the final state, the terminal
error if any, and whether the commit step ran. -/
structure job_result where
  state : blob_state
  error : Option storage_error
  commit_invoked : Bool
deriving DecidableEq, Repr

/-- Modelled from the spec: a chunked upload job (sections 4.4, 4.7):
upload every chunk, and only when every chunk succeeded invoke the
block list commit with the chunk ids in order. -/
def run_upload_job (digestFn : List Nat → String) (transactional : Bool)
    (s : blob_state) (chunks : List chunk_spec) : job_result :=
  match run_chunks digestFn transactional s chunks with
  | (s2, some e) => ⟨s2, some e, false⟩
  | (s2, none) =>
    match upload_block_list s2 (chunks.map (fun c => c.id)) with
    | (s3, err) => ⟨s3, err, true⟩

/-! ### Concurrency gate

Modelled from the spec: the ConcurrencyGate (section 4.3) is a
counting admission gate initialised to `parallelism_factor`; acquire
blocks the caller until a slot is free, release returns a slot.  A
schedule of the gate is the sequence of acquire and release events
that actually occurred; an acquire event can only occur while a slot
is free, a release only while a slot is held. -/

inductive gate_event
  | acquire
  | release
deriving DecidableEq, Repr

/-- Whether a sequence of gate events can actually occur, starting
from `n` operations in flight: an acquire is admitted only while
fewer than `cap` operations are in flight, a release only while at
least one is. -/
def gate_ok (cap : Nat) : Nat → List gate_event → Bool
  | _, [] => true
  | n, .acquire :: es => decide (n < cap) && gate_ok cap (n + 1) es
  | n, .release :: es => decide (0 < n) && gate_ok cap (n - 1) es

/-- The number of operations past acquire and before release after a
sequence of gate events, starting from `n` in flight. -/
def in_flight (n : Nat) (events : List gate_event) : Nat :=
  events.foldl
    (fun m e => match e with | .acquire => m + 1 | .release => m - 1) n

/-! ### Deadline guard

Modelled from the spec: the DeadlineGuard (section 4.6) gives the
whole job a budget of wall clock time; before each request the guard
checks whether the elapsed time has exceeded the budget and, once it
observes expiry, fails the job with a TimeoutError without issuing
further requests.  In the scenario pinned by
`block_blob_upload_maximum_execution_time` every response is delayed
by a fixed amount, so elapsed time after `k` responses is `k * delay`;
the model issues the chunk requests in order (parallelism one, the
default), then the commit request, each guarded. -/

/-- Run the chunk requests of a job under the deadline guard:
`remaining` chunk requests are still to issue, `elapsed` time has
passed, `reqs` requests have been issued.  After the chunks, the
guard also runs before the commit request.  Returns the terminal
error, if any, and how many requests were issued in total. -/
def run_timed (delay budget : Nat) :
    Nat → Nat → Nat → Option storage_error × Nat
  | 0, elapsed, reqs =>
    if budget < elapsed then (some .timeout_error, reqs) else (none, reqs + 1)
  | remaining + 1, elapsed, reqs =>
    if budget < elapsed then (some .timeout_error, reqs)
    else run_timed delay budget remaining (elapsed + delay) (reqs + 1)

/-- Modelled from the spec: a chunked upload job of `chunks` blocks
whose every response takes `delay` time, under a maximum execution
time of `budget`. -/
def upload_with_deadline (chunks delay budget : Nat) : Option storage_error × Nat :=
  run_timed delay budget chunks 0 0

/-- The ten single digit blocks of the `block_reordering` test: block
`i` holds the UTF-8 byte of the digit `i`, uploaded but not yet
committed. -/
def reordering_state : blob_state :=
  ⟨[], (List.range 10).map fun i => (get_block_id i, [48 + i])⟩

/-- A simple concrete digest function standing in for MD5 in
witnesses. -/
def checksum_digest (bytes : List Nat) : String :=
  toString (bytes.foldl (· + ·) 0)

/-! ## Theorems -/

/-- The block splitter cuts `ceil (remaining / B)` blocks whenever it
has enough fuel. -/
theorem splitGo_length (B : Nat) (hB : 0 < B) :
    ∀ fuel off remaining, remaining ≤ fuel →
      (splitGo B fuel off remaining).length = (remaining + B - 1) / B := by
  intro fuel
  induction fuel with
  | zero =>
    intro off remaining hle
    have h0 : remaining = 0 := Nat.le_zero.mp hle
    subst h0
    simp [splitGo, Nat.div_eq_of_lt (show B - 1 < B by omega)]
  | succ fuel ih =>
    intro off remaining hle
    by_cases h0 : remaining = 0
    · subst h0
      simp [splitGo, Nat.div_eq_of_lt (show B - 1 < B by omega)]
    · rw [splitGo]
      simp only [if_neg h0, List.length_cons]
      rw [ih (off + min B remaining) (remaining - min B remaining) (by omega)]
      rcases le_or_lt remaining B with hrb | hrb
      · have hmin : min B remaining = remaining := by omega
        rw [hmin, Nat.sub_self]
        rw [Nat.div_eq_of_lt (show 0 + B - 1 < B by omega)]
        have h1 : (remaining + B - 1) / B = 1 := Nat.div_eq_of_lt_le (by omega) (by omega)
        omega
      · have hmin : min B remaining = B := by omega
        have hsplit : remaining + B - 1 = remaining - B + B - 1 + B := by omega
        rw [hmin, hsplit, Nat.add_div_right _ hB]

/-- The number of blocks of a source of length `L` with block size
`B > 0` is `ceil (L / B)`. -/
theorem split_blocks_length (L B : Nat) (hB : 0 < B) :
    (split_blocks L B).length = (L + B - 1) / B :=
  splitGo_length B hB L 0 L (Nat.le_refl L)

/-- Claim C1 counterexample: at the configuration of
`block_blob_upload` line 187 — a 6 MiB source, the threshold equal to
the length (6 MiB, set at line 180), 1 MiB blocks and parallelism
factor 4 (line 185) — the test pins seven requests, although the
claim requires exactly one upload request whenever the length is at
most the threshold. -/
theorem upload_request_count_counterexample :
    (6 * 1024 * 1024 : Nat) ≤ 6 * 1024 * 1024 ∧
    upload_request_count (6 * 1024 * 1024) (6 * 1024 * 1024) (1024 * 1024) 4 = 7 ∧
    (7 : Nat) ≠ 1 :=
  ⟨by decide, rfl, by decide⟩

/-- Claim C1 as amended: for an upload job with source length `L`,
single shot threshold `T`, block size `B` and parallelism factor `P`:
exactly one upload request is issued when `L ≤ T` and `P = 1`, and
otherwise (when `L > T` or `P ≠ 1`) exactly `ceil (L / B)` block
upload requests plus one commit request are issued, so the total
request count is `ceil (L / B) + 1`. -/
theorem upload_request_count_correct (L T B P : Nat) (hB : 0 < B) :
    (L ≤ T → P = 1 → upload_request_count L T B P = 1) ∧
    (T < L ∨ P ≠ 1 → upload_request_count L T B P = (L + B - 1) / B + 1) := by
  constructor
  · intro hLT hP
    simp [upload_request_count, plan, hLT, hP]
  · intro h
    have hcond : ¬ (L ≤ T ∧ P = 1) := by rcases h with h | h <;> omega
    simp only [upload_request_count, plan, if_neg hcond]
    rw [split_blocks_length L B hB]

/-- Witness for the amended C1 at the inputs of `block_blob_upload`
lines 181 and 187: one request at parallelism 1 and seven at
parallelism 4, both at a 6 MiB length equal to the threshold with
1 MiB blocks. -/
theorem upload_request_count_correct_witness :
    upload_request_count (6 * 1024 * 1024) (6 * 1024 * 1024) (1024 * 1024) 1 = 1 ∧
    upload_request_count (6 * 1024 * 1024) (6 * 1024 * 1024) (1024 * 1024) 4 = 7 := by
  constructor
  · exact (upload_request_count_correct (6 * 1024 * 1024) (6 * 1024 * 1024)
      (1024 * 1024) 1 (by decide)).1 (by decide) rfl
  · exact ((upload_request_count_correct (6 * 1024 * 1024) (6 * 1024 * 1024)
      (1024 * 1024) 4 (by decide)).2 (Or.inr (by decide))).trans (by decide)

/-- Resolving every id of a fully resolvable list succeeds and yields
the resolved bytes pointwise. -/
theorem mapM_resolve (s : blob_state) :
    ∀ ids : List String, (∀ id ∈ ids, resolve_block s id ≠ none) →
      (ids.mapM fun id => (resolve_block s id).map fun bytes => (id, bytes)) =
        some (ids.map fun id => (id, (resolve_block s id).getD [])) := by
  intro ids
  induction ids with
  | nil => intro _; rfl
  | cons a l ih =>
    intro h
    obtain ⟨b, hb⟩ : ∃ b, resolve_block s a = some b := by
      rcases hr : resolve_block s a with _ | b
      · exact absurd hr (h a (by simp))
      · exact ⟨b, rfl⟩
    rw [List.mapM_cons, ih fun i hi => h i (by simp [hi]), hb]
    simp [hb]

/-- Claim C2: committing an explicit ordered list of previously
uploaded block ids redefines the readable content to be exactly the
concatenation of the referenced blocks in the given list order;
uploaded blocks not referenced in the list contribute nothing to the
content. -/
theorem upload_block_list_commit (s : blob_state) (ids : List String)
    (h : ∀ id ∈ ids, resolve_block s id ≠ none) :
    (upload_block_list s ids).2 = none ∧
    download_content (upload_block_list s ids).1 =
      (ids.map fun id => (resolve_block s id).getD []).flatten := by
  unfold upload_block_list
  rw [mapM_resolve s ids h]
  refine ⟨rfl, ?_⟩
  simp only [download_content, List.map_map]
  rfl

/-- Witness for C2 at the final step of `block_reordering`: committing
blocks 4, 1, 2, 3, 5, 6, 7, 8, 9, 4 reads back as "4123567894". -/
theorem upload_block_list_commit_witness :
    download_content (upload_block_list reordering_state
      [get_block_id 4, get_block_id 1, get_block_id 2, get_block_id 3,
       get_block_id 5, get_block_id 6, get_block_id 7, get_block_id 8,
       get_block_id 9, get_block_id 4]).1 =
      [52, 49, 50, 51, 53, 54, 55, 56, 57, 52] :=
  (upload_block_list_commit reordering_state
    [get_block_id 4, get_block_id 1, get_block_id 2, get_block_id 3,
     get_block_id 5, get_block_id 6, get_block_id 7, get_block_id 8,
     get_block_id 9, get_block_id 4] (by decide)).2.trans (by decide)

/-- The only failure `upload_block` produces is an integrity error,
and a failed block upload leaves the state unchanged. -/
theorem upload_block_error (digestFn : List Nat → String) (transactional : Bool)
    (s : blob_state) (id : String) (body : List Nat) (md5 : Option String)
    (s2 : blob_state) (e : storage_error)
    (h : upload_block digestFn transactional s id body md5 = (s2, some e)) :
    e = .integrity_error ∧ s2 = s := by
  rcases md5 with _ | m
  · cases transactional <;> simp [upload_block] at h
  · by_cases hm : m = digestFn body
    · simp [upload_block, hm] at h
    · simp [upload_block, hm] at h
      exact ⟨h.2.symm, h.1.symm⟩

/-- Every failure of the chunk phase is an integrity error. -/
theorem run_chunks_error (digestFn : List Nat → String) (transactional : Bool) :
    ∀ chunks (s s2 : blob_state) (e : storage_error),
      run_chunks digestFn transactional s chunks = (s2, some e) →
        e = .integrity_error := by
  intro chunks
  induction chunks with
  | nil => intro s s2 e h; simp [run_chunks] at h
  | cons c cs ih =>
    intro s s2 e h
    rw [run_chunks] at h
    rcases hu : upload_block digestFn transactional s c.id c.body c.content_md5
      with ⟨s3, err⟩
    rw [hu] at h
    rcases err with _ | e2
    · exact ih s3 s2 e h
    · have he2 := (upload_block_error digestFn transactional s c.id c.body
        c.content_md5 s3 e2 hu).1
      have he : e2 = e := Option.some.inj (congrArg Prod.snd h)
      exact he ▸ he2

/-- A chunk list containing a chunk whose supplied digest disagrees
with its body fails the chunk phase with an integrity error. -/
theorem run_chunks_mismatch (digestFn : List Nat → String) (transactional : Bool) :
    ∀ chunks (s : blob_state),
      (∃ c ∈ chunks, ∃ m, c.content_md5 = some m ∧ m ≠ digestFn c.body) →
      ∃ s2, run_chunks digestFn transactional s chunks =
        (s2, some storage_error.integrity_error) := by
  intro chunks
  induction chunks with
  | nil => rintro s ⟨c, hc, _⟩; exact absurd hc (List.not_mem_nil c)
  | cons c0 cs ih =>
    rintro s ⟨c, hc, m, hm, hne⟩
    rcases List.mem_cons.mp hc with rfl | hmem
    · have hfail : upload_block digestFn transactional s c.id c.body c.content_md5 =
          (s, some .integrity_error) := by
        simp [upload_block, hm, hne]
      rw [run_chunks, hfail]
      exact ⟨s, rfl⟩
    · rcases hu : upload_block digestFn transactional s c0.id c0.body c0.content_md5
        with ⟨s3, err⟩
      rw [run_chunks, hu]
      rcases err with _ | e2
      · exact ih s3 ⟨c, hmem, m, hm, hne⟩
      · have he2 := (upload_block_error digestFn transactional s c0.id c0.body
          c0.content_md5 s3 e2 hu).1
        exact ⟨s3, by rw [he2]⟩

/-- Claim C3: a chunk upload with transactional integrity enabled
whose supplied digest does not match the chunk bytes fails with an
IntegrityError and leaves the committed and uncommitted block lists
unchanged (from any state), and an upload job containing such a chunk
ends in an IntegrityError with its commit step never invoked. -/
theorem chunk_digest_mismatch_aborts (digestFn : List Nat → String)
    (s : blob_state) (chunks : List chunk_spec) (c : chunk_spec) (m : String)
    (hc : c ∈ chunks) (hm : c.content_md5 = some m) (hne : m ≠ digestFn c.body) :
    (∀ s0, upload_block digestFn true s0 c.id c.body c.content_md5 =
      (s0, some .integrity_error)) ∧
    (run_upload_job digestFn true s chunks).error = some .integrity_error ∧
    (run_upload_job digestFn true s chunks).commit_invoked = false := by
  refine ⟨fun s0 => by simp [upload_block, hm, hne], ?_⟩
  obtain ⟨s2, hrun⟩ := run_chunks_mismatch digestFn true chunks s ⟨c, hc, m, hm, hne⟩
  rw [run_upload_job, hrun]
  exact ⟨rfl, rfl⟩

/-- Witness for C3: one chunk carrying the digest "dummy" over the
bytes 1, 2 fails the job without invoking the commit. -/
theorem chunk_digest_mismatch_aborts_witness :
    (run_upload_job checksum_digest true blob_state.empty
      [⟨get_block_id 0, [1, 2], some "dummy"⟩]).error = some .integrity_error ∧
    (run_upload_job checksum_digest true blob_state.empty
      [⟨get_block_id 0, [1, 2], some "dummy"⟩]).commit_invoked = false :=
  (chunk_digest_mismatch_aborts checksum_digest blob_state.empty
    [⟨get_block_id 0, [1, 2], some "dummy"⟩] ⟨get_block_id 0, [1, 2], some "dummy"⟩
    "dummy" (List.Mem.head _) rfl (by decide)).2

/-- Claim C4 counterexample: at the first input of
`block_blob_upload_with_invalid_size` (a 2 MiB seekable source asked
to upload 2 MiB + 1 bytes) the test requires a
`wa::storage::storage_exception`, not the `std::invalid_argument`
that an ArgumentError surfaces as — the claim assigns the error kinds
to the two source kinds the wrong way round. -/
theorem explicit_length_counterexample :
    upload_with_explicit_length (2 * 1024 * 1024) 0 (2 * 1024 * 1024 + 1) true =
      .error .service_error ∧
    (Except.error .service_error : Except storage_error Unit) ≠
      .error .argument_error :=
  ⟨rfl, fun hcontra => absurd (Except.error.inj hcontra) (by decide)⟩

/-- Claim C4 as amended: requesting an explicit length exceeding the
bytes remaining in the source fails — for a seekable source as a
`wa::storage::storage_exception` (the failure surfaces mid transfer),
for a non seekable source as `std::invalid_argument` (an
ArgumentError). -/
theorem explicit_length_error_kinds (buffer_size buffer_offset blob_size : Nat)
    (h : buffer_size - buffer_offset < blob_size) :
    upload_with_explicit_length buffer_size buffer_offset blob_size true =
      .error .service_error ∧
    upload_with_explicit_length buffer_size buffer_offset blob_size false =
      .error .argument_error := by
  constructor <;>
    simp [upload_with_explicit_length,
      if_neg (by omega : ¬ blob_size ≤ buffer_size - buffer_offset)]

/-- Witness for the amended C4 at the offset inputs of
`block_blob_upload_with_invalid_size`. -/
theorem explicit_length_error_kinds_witness :
    upload_with_explicit_length (2 * 1024 * 1024) 1024 (2 * 1024 * 1024 - 1023) true =
      .error .service_error ∧
    upload_with_explicit_length (2 * 1024 * 1024) 1024 (2 * 1024 * 1024 - 1023) false =
      .error .argument_error :=
  explicit_length_error_kinds (2 * 1024 * 1024) 1024 (2 * 1024 * 1024 - 1023) (by decide)

/-- A prefix of an admissible gate schedule is admissible. -/
theorem gate_ok_append (cap : Nat) :
    ∀ t1 (n : Nat) (t2 : List gate_event),
      gate_ok cap n (t1 ++ t2) = true → gate_ok cap n t1 = true := by
  intro t1
  induction t1 with
  | nil => intro n t2 _; rfl
  | cons e es ih =>
    intro n t2 h
    cases e <;> simp [gate_ok] at h ⊢ <;> exact ⟨h.1, ih _ _ h.2⟩

/-- Starting at most `cap` operations in flight, an admissible gate
schedule keeps the in flight count at most `cap`. -/
theorem gate_ok_in_flight (cap : Nat) :
    ∀ events (n : Nat), gate_ok cap n events = true → n ≤ cap →
      in_flight n events ≤ cap := by
  intro events
  induction events with
  | nil => intro n _ hn; exact hn
  | cons e es ih =>
    intro n h hn
    cases e
    · simp [gate_ok] at h
      simpa [in_flight] using ih (n + 1) h.2 (by omega)
    · simp [gate_ok] at h
      simpa [in_flight] using ih (n - 1) h.2 (by omega)

/-- Claim C5: with a concurrency gate of capacity
`parallelism_factor ≥ 1`, at no instant of an admissible schedule are
more than `parallelism_factor` chunk operations past acquire and
before release: the in flight count after any prefix of the schedule
is at most the capacity. -/
theorem gate_bounds_parallelism (cap : Nat) (hcap : 1 ≤ cap)
    (events t1 t2 : List gate_event) (hok : gate_ok cap 0 events = true)
    (hsplit : events = t1 ++ t2) :
    in_flight 0 t1 ≤ cap :=
  gate_ok_in_flight cap t1 0 (gate_ok_append cap t1 0 t2 (hsplit ▸ hok)) (by omega)

/-- Witness for C5 at capacity 4 (the parallelism factor of
`block_blob_upload`): after four acquires and one release of an
admissible ten event schedule, three operations are in flight. -/
theorem gate_bounds_parallelism_witness :
    in_flight 0 [.acquire, .acquire, .acquire, .acquire, .release] ≤ 4 :=
  gate_bounds_parallelism 4 (by decide)
    [.acquire, .acquire, .acquire, .acquire, .release,
     .acquire, .release, .release, .release, .release]
    [.acquire, .acquire, .acquire, .acquire, .release]
    [.acquire, .release, .release, .release, .release]
    (by decide) rfl

/-- Claim C6: a two chunk upload job whose responses each take `d`
under a maximum execution time `m` exceeded by the aggregate elapsed
time (`d ≤ m < 2 * d`; both are 10 seconds in
`block_blob_upload_maximum_execution_time`) terminates with a
TimeoutError, with exactly two requests issued by then and no further
request — in particular not the commit — issued after the guard
observes expiry. -/
theorem two_chunk_deadline_timeout (d m : Nat) (hdm : d ≤ m) (hm : m < 2 * d) :
    upload_with_deadline 2 d m = (some .timeout_error, 2) := by
  have h0 : ¬ m < 0 := by omega
  have h1 : ¬ m < d := by omega
  have h2 : m < d + d := by omega
  simp [upload_with_deadline, run_timed, h0, h1, h2]

/-- Witness for C6 at the pinned scenario: delay and budget both 10
seconds. -/
theorem two_chunk_deadline_timeout_witness :
    upload_with_deadline 2 10 10 = (some .timeout_error, 2) :=
  two_chunk_deadline_timeout 10 10 (by decide) (by decide)

/-- The binary accessor yields the binary type mismatch error exactly
when the stored type is not binary. -/
theorem binary_value_mismatch_iff (p : entity_property) :
    p.binary_value = .error (.type_mismatch .binary) ↔ p.m_property_type ≠ .binary := by
  constructor
  · intro h hty
    simp [entity_property.binary_value, hty] at h
    rcases hfb : from_base64 p.m_value with _ | bs <;> simp [hfb] at h
  · intro hty
    simp [entity_property.binary_value, hty]

/-- The boolean accessor yields the boolean type mismatch error
exactly when the stored type is not boolean. -/
theorem boolean_value_mismatch_iff (p : entity_property) :
    p.boolean_value = .error (.type_mismatch .boolean) ↔ p.m_property_type ≠ .boolean := by
  constructor
  · intro h hty
    simp [entity_property.boolean_value, hty] at h
    by_cases h1 : p.m_value = "false" <;> by_cases h2 : p.m_value = "true" <;>
      simp [h1, h2] at h
  · intro hty
    simp [entity_property.boolean_value, hty]

/-- The double accessor yields the double type mismatch error exactly
when the stored type is not double. -/
theorem double_value_mismatch_iff (p : entity_property) :
    p.double_value = .error (.type_mismatch .double_floating_point) ↔
      p.m_property_type ≠ .double_floating_point := by
  constructor
  · intro h hty
    simp [entity_property.double_value, hty, double_not_a_number, double_infinity,
      double_negative_infinity] at h
    by_cases h1 : p.m_value = "NaN" <;> by_cases h2 : p.m_value = "Infinity" <;>
      by_cases h3 : p.m_value = "-Infinity" <;> simp [h1, h2, h3] at h
  · intro hty
    simp [entity_property.double_value, hty]

/-- The GUID accessor yields the GUID type mismatch error exactly when
the stored type is not GUID. -/
theorem guid_value_mismatch_iff (p : entity_property) :
    p.guid_value = .error (.type_mismatch .guid) ↔ p.m_property_type ≠ .guid := by
  constructor
  · intro h hty
    simp [entity_property.guid_value, hty] at h
    by_cases h1 : entity_property.uuid_format_ok p.m_value <;> simp [h1] at h
  · intro hty
    simp [entity_property.guid_value, hty]

/-- The 32-bit integer accessor yields its type mismatch error exactly
when the stored type is not int32. -/
theorem int32_value_mismatch_iff (p : entity_property) :
    p.int32_value = .error (.type_mismatch .int32) ↔ p.m_property_type ≠ .int32 := by
  constructor
  · intro h hty
    simp [entity_property.int32_value, hty] at h
  · intro hty
    simp [entity_property.int32_value, hty]

/-- The 64-bit integer accessor yields its type mismatch error exactly
when the stored type is not int64. -/
theorem int64_value_mismatch_iff (p : entity_property) :
    p.int64_value = .error (.type_mismatch .int64) ↔ p.m_property_type ≠ .int64 := by
  constructor
  · intro h hty
    simp [entity_property.int64_value, hty] at h
  · intro hty
    simp [entity_property.int64_value, hty]

/-- The string accessor yields its type mismatch error exactly when
the stored type is not string. -/
theorem string_value_mismatch_iff (p : entity_property) :
    p.string_value = .error (.type_mismatch .string) ↔ p.m_property_type ≠ .string := by
  constructor
  · intro h hty
    simp [entity_property.string_value, hty] at h
  · intro hty
    simp [entity_property.string_value, hty]

/-- Claim C7 counterexample: the stored type of a property can match
the accessor kind while the accessor still raises an error, so
"throws if and only if the stored type differs" fails in the only-if
direction.  The property is reached through the public API: a default
constructed `entity_property` retagged with `set_property_type` to
boolean holds the stored text "", which `boolean_value` fails to
parse although the type tag matches. -/
theorem boolean_accessor_counterexample :
    (entity_property.default.set_property_type .boolean).m_property_type = .boolean ∧
    (entity_property.default.set_property_type .boolean).boolean_value =
      .error (.value_error "An error occurred parsing the boolean.") :=
  ⟨rfl, rfl⟩

/-- Claim C7 as amended: every typed accessor fails with its type
mismatch error exactly when the stored type differs from the accessor
kind; when the stored type matches, no type mismatch error is raised —
though a parse error over a malformed stored string remains possible
(see the counterexample) — and the string accessor returns the stored
value. -/
theorem accessor_type_checks (p : entity_property) :
    (p.binary_value = .error (.type_mismatch .binary) ↔ p.m_property_type ≠ .binary) ∧
    (p.boolean_value = .error (.type_mismatch .boolean) ↔ p.m_property_type ≠ .boolean) ∧
    (p.double_value = .error (.type_mismatch .double_floating_point) ↔
      p.m_property_type ≠ .double_floating_point) ∧
    (p.guid_value = .error (.type_mismatch .guid) ↔ p.m_property_type ≠ .guid) ∧
    (p.int32_value = .error (.type_mismatch .int32) ↔ p.m_property_type ≠ .int32) ∧
    (p.int64_value = .error (.type_mismatch .int64) ↔ p.m_property_type ≠ .int64) ∧
    (p.string_value = .error (.type_mismatch .string) ↔ p.m_property_type ≠ .string) ∧
    (p.m_property_type = .string → p.string_value = .ok p.m_value) :=
  ⟨binary_value_mismatch_iff p, boolean_value_mismatch_iff p,
   double_value_mismatch_iff p, guid_value_mismatch_iff p,
   int32_value_mismatch_iff p, int64_value_mismatch_iff p,
   string_value_mismatch_iff p,
   fun h => by simp [entity_property.string_value, h]⟩

/-- Witness for the amended C7 on a default constructed property:
reading it as binary is a type mismatch, reading it as string returns
the stored empty value. -/
theorem accessor_type_checks_witness :
    entity_property.default.binary_value = .error (.type_mismatch .binary) ∧
    entity_property.default.string_value = .ok "" :=
  ⟨(accessor_type_checks entity_property.default).1.mpr (by decide),
   (accessor_type_checks entity_property.default).2.2.2.2.2.2.2 rfl⟩

/-- Claim C8 counterexample: a chunked upload (6 MiB over a 4 MiB
threshold with 4 MiB blocks at parallelism 1, the configuration of
`block_blob_upload` lines 164-170) with transactional MD5 required
and content MD5 storage disabled succeeds and issues its 3 requests —
the combination is not rejected on the chunked path.  (Line 187 pins
the same: 7 requests succeed with these flags even at a length equal
to the threshold, the chunked path being forced by parallelism 4.) -/
theorem invalid_options_counterexample :
    upload_from_stream ⟨true, false⟩ (6 * 1024 * 1024) (4 * 1024 * 1024)
        (4 * 1024 * 1024) 1 = .ok 3 ∧
    upload_from_stream ⟨true, false⟩ (6 * 1024 * 1024) (6 * 1024 * 1024)
        (1024 * 1024) 4 = .ok 7 ∧
    (Except.ok 3 : Except storage_error Nat) ≠ .error .argument_error :=
  ⟨rfl, rfl, fun hcontra => Except.noConfusion hcontra⟩

/-- Claim C8 as amended: an upload taking the single shot path —
source length at most the single shot threshold AND parallelism
factor one, as for `upload_text` under default options — configured
with transactional MD5 required and content MD5 storage disabled
fails with an ArgumentError before any request is issued; the chunked
path (length above the threshold, or parallelism factor above one)
accepts the combination. -/
theorem invalid_options_rejected (opts : blob_request_options) (L T B P : Nat)
    (hLT : L ≤ T) (hP : P = 1) (ht : opts.use_transactional_md5 = true)
    (hs : opts.store_blob_content_md5 = false) :
    upload_from_stream opts L T B P = .error .argument_error := by
  simp [upload_from_stream, plan, hLT, hP, ht, hs]

/-- Witness for the amended C8 at the configuration of
`block_blob_upload_invalid_options`: an empty text upload under the
default threshold and default parallelism factor one. -/
theorem invalid_options_rejected_witness :
    upload_from_stream ⟨true, false⟩ 0 (32 * 1024 * 1024) (4 * 1024 * 1024) 1 =
      .error .argument_error :=
  invalid_options_rejected ⟨true, false⟩ 0 (32 * 1024 * 1024) (4 * 1024 * 1024) 1
    (by decide) rfl rfl rfl

/-- The base64 alphabet is strictly increasing in character code on
its letter range, indexes 0 to 51. -/
theorem b64char_mono_letters :
    ∀ b < 52, ∀ a < b, (b64char a).toNat < (b64char b).toNat := by decide

/-- The second id character, driven by the low two bits of the low
byte, is strictly increasing in character code. -/
theorem b64char_mono_second :
    ∀ b < 4, ∀ a < b, (b64char (a * 16)).toNat < (b64char (b * 16)).toNat := by decide

/-- For a block index below 256 only the first two characters of the
encoded id vary. -/
theorem get_block_id_shape (i : Nat) (h : i < 256) :
    (get_block_id i).data =
      [b64char (i / 4), b64char (i % 4 * 16),
       'A', 'A', 'A', 'A', 'A', 'A', 'A', 'A', 'A', '='] := by
  have h1 : i % 256 = i := Nat.mod_eq_of_lt h
  have h2 : i / 256 = 0 := Nat.div_eq_of_lt h
  have hA : b64char 0 = 'A' := rfl
  simp [get_block_id, to_base64_u64, to_base64, toLEBytes, encodeGroups, h1, h2, hA]

/-- Claim C9 counterexample: block sequence number 1 encodes to
"AQAAAAAAAAA=" and 256 to "AAEAAAAAAAA=", because `to_base64` of a
64-bit integer encodes its little-endian in-memory bytes; under the
lexicographic id ordering the id produced for 256 sorts strictly
before the id produced for 1 although 1 < 256, so the encoding is not
order preserving. -/
theorem block_id_order_counterexample :
    (1 : Nat) < 256 ∧
    id_lt (get_block_id 1) (get_block_id 256) = false ∧
    id_lt (get_block_id 256) (get_block_id 1) = true :=
  ⟨by decide, rfl, rfl⟩

/-- Claim C9 as amended: the encoded block ids sort consistently with
the sequence numbers only as long as the ids differ in the low byte
alone and its base64 characters stay in the ASCII-ordered letter
range: for all i < j ≤ 207 the id produced for i sorts strictly
before the id produced for j.  The first violations are at 207
versus 208 (the alphabet leaves the letter range) and at 1 versus 256
(little-endian byte order). -/
theorem get_block_id_mono (i j : Nat) (hij : i < j) (hj : j ≤ 207) :
    id_lt (get_block_id i) (get_block_id j) = true := by
  have hsi := get_block_id_shape i (by omega)
  have hsj := get_block_id_shape j (by omega)
  unfold id_lt
  rw [hsi, hsj]
  rcases Nat.lt_or_ge (i / 4) (j / 4) with hd | hd
  · have hlt := b64char_mono_letters (j / 4) (by omega) (i / 4) hd
    simp [lexLt, hlt]
  · have hdeq : i / 4 = j / 4 := by omega
    have hm : i % 4 < j % 4 := by omega
    have hlt := b64char_mono_second (j % 4) (by omega) (i % 4) hm
    rw [hdeq]
    simp [lexLt, hlt]

/-- Witness for the amended C9 on the sequence numbers the tests use:
the id of block 0 sorts before the id of block 9. -/
theorem get_block_id_mono_witness :
    id_lt (get_block_id 0) (get_block_id 9) = true :=
  get_block_id_mono 0 9 (by decide) (by decide)

/-- Every `set_value` overload other than the byte array one updates
the type tag to the matching kind and clears the null flag. -/
theorem set_value_updates_tag (p : entity_property) (b : Bool) (dt : String)
    (d : edm_double) (g : String) (n32 n64 : Int) (s : String) :
    (p.set_value_boolean b).m_property_type = .boolean ∧
      (p.set_value_boolean b).m_is_null = false ∧
    (p.set_value_datetime dt).m_property_type = .datetime ∧
      (p.set_value_datetime dt).m_is_null = false ∧
    (p.set_value_double d).m_property_type = .double_floating_point ∧
      (p.set_value_double d).m_is_null = false ∧
    (p.set_value_guid g).m_property_type = .guid ∧
      (p.set_value_guid g).m_is_null = false ∧
    (p.set_value_int32 n32).m_property_type = .int32 ∧
      (p.set_value_int32 n32).m_is_null = false ∧
    (p.set_value_int64 n64).m_property_type = .int64 ∧
      (p.set_value_int64 n64).m_is_null = false ∧
    (p.set_value_string s).m_property_type = .string ∧
      (p.set_value_string s).m_is_null = false :=
  ⟨rfl, rfl, rfl, rfl, rfl, rfl, rfl, rfl, rfl, rfl, rfl, rfl, rfl, rfl⟩

/-- Claim C10 at its failing input (code bug): the byte array
overload of `set_value` forwards straight to `set_value_impl` and,
unlike every other overload and unlike the byte array constructor,
assigns neither `m_property_type` nor `m_is_null`; on a default
constructed property the type tag stays `string` and the null flag
stays set, so the freshly stored byte array cannot even be read back
— `binary_value` raises the type mismatch error, contradicting the
documentation of `set_value` and `binary_value`.  The boolean
overload is evaluated alongside for contrast. -/
theorem set_value_binary_bug :
    (entity_property.default.set_value_binary [1, 2, 3]).property_type = .string ∧
    (entity_property.default.set_value_binary [1, 2, 3]).is_null = true ∧
    (entity_property.default.set_value_binary [1, 2, 3]).binary_value =
      .error (.type_mismatch .binary) ∧
    (entity_property.default.set_value_boolean true).property_type = .boolean ∧
    (entity_property.default.set_value_boolean true).is_null = false :=
  ⟨rfl, rfl, rfl, rfl, rfl⟩

end AzureStorage
